import Mathlib

/-!
Verification of the DEX (Dalvik Executable) parser in
`src/parsers/dex_parser.py` (class `DexParser`).

Shallow embedding conventions:
* the raw byte buffer `self.data` is a `List Nat`, each element a byte value;
* Python `struct.unpack` on a slice raises `struct.error` unless the slice
  length equals the format size exactly; fallible reads therefore return
  `Option`/`Except`;
* Python strings obtained from `bytes.decode('utf-8', errors='replace')` are
  modelled as the raw byte lists they decode (the decode never raises, maps
  the empty byte string to the empty string and nonempty to nonempty, which
  is all the claims depend on); the empty string is `[]`;
* `DexParser.parse` is modelled as a function from the buffer to the final
  outcome together with the parser object's table state.  The caught
  exceptions (`ValueError`, `struct.error`, `IndexError`) and the
  `return False` path of `_validate_magic` are the `DexError` constructors.
-/

namespace DexParser

/-- A raw byte buffer, one `Nat` per byte (`self.data`). -/
abbrev Buf := List Nat

/-- Little-endian integer of `w` bytes read at `off` (no bounds check; used
only underneath the exact-slice-length guards of the `struct.unpack` calls). -/
def leRead (data : Buf) (off : Nat) : Nat → Nat
  | 0 => 0
  | w + 1 => data.getD off 0 + 256 * leRead data (off + 1) w

/-- `struct.unpack('<I', self.data[off:off+4])`: Python slicing clamps, and
`struct.unpack` raises `struct.error` unless the slice has exactly 4 bytes. -/
def readU32 (data : Buf) (off : Nat) : Option Nat :=
  if off + 4 ≤ data.length then some (leRead data off 4) else none

/-- `struct.unpack('<HHI', self.data[off:off+8])` (field and method records). -/
def readFieldRecord (data : Buf) (off : Nat) : Option (Nat × Nat × Nat) :=
  if off + 8 ≤ data.length then
    some (leRead data off 2, leRead data (off + 2) 2, leRead data (off + 4) 4)
  else none

/-- `struct.unpack('<3I', self.data[off:off+12])` (proto records). -/
def readProtoRecord (data : Buf) (off : Nat) : Option (Nat × Nat × Nat) :=
  if off + 12 ≤ data.length then
    some (leRead data off 4, leRead data (off + 4) 4, leRead data (off + 8) 4)
  else none

/-- `struct.unpack('<8I', self.data[off:off+32])` (class-def records). -/
def readClassDefRecord (data : Buf) (off : Nat) :
    Option (Nat × Nat × Nat × Nat × Nat × Nat × Nat × Nat) :=
  if off + 32 ≤ data.length then
    some (leRead data off 4, leRead data (off + 4) 4, leRead data (off + 8) 4,
          leRead data (off + 12) 4, leRead data (off + 16) 4, leRead data (off + 20) 4,
          leRead data (off + 24) 4, leRead data (off + 28) 4)
  else none

/-- The loop body of `DexParser._read_uleb128`:
`while offset + bytes_read < len(self.data)`; one byte per iteration,
`result |= (byte & 0x7F) << shift`, break when bit `0x80` is clear,
else `shift += 7`.  Terminates because `bytes_read` grows towards the
buffer length. -/
def readUleb128Go (data : Buf) (off result shift bytesRead : Nat) : Nat × Nat :=
  if h : off + bytesRead < data.length then
    let byte := data.getD (off + bytesRead) 0
    let result2 := result ||| ((byte &&& 0x7F) <<< shift)
    if byte &&& 0x80 = 0 then (result2, bytesRead + 1)
    else readUleb128Go data off result2 (shift + 7) (bytesRead + 1)
  else (result, bytesRead)
termination_by data.length - (off + bytesRead)
decreasing_by omega

/-- `DexParser._read_uleb128(offset) -> (result, bytes_read)`. -/
def readUleb128 (data : Buf) (off : Nat) : Nat × Nat :=
  readUleb128Go data off 0 0 0

/-- Reference ULEB128 encoder (the spec's round-trip partner; not part of the
source, built from the ULEB128 format definition: 7 payload bits per byte,
high bit set on every byte except the last). -/
def ulebEncode (v : Nat) : List Nat :=
  if v < 0x80 then [v]
  else (v % 0x80 + 0x80) :: ulebEncode (v / 0x80)
termination_by v
decreasing_by exact Nat.div_lt_self (by omega) (by omega)

/-- `DexParser._read_string_data(offset)`: ULEB128 length, then the byte slice
`self.data[offset+bytes_read : offset+bytes_read+length]` (Python slicing
clamps at the buffer end).  The body cannot raise, so the
`except Exception: return ""` branch is dead; the function is total. -/
def readStringData (data : Buf) (off : Nat) : List Nat :=
  let r := readUleb128 data off
  (data.drop (off + r.2)).take r.1

/-- `DexParser.DEX_MAGIC = b'dex\x0a'`. -/
def DEX_MAGIC : Buf := [0x64, 0x65, 0x78, 0x0A]

/-- `DexParser.DEX_VERSIONS = [b'035\x00', b'037\x00', b'038\x00', b'039\x00']`. -/
def DEX_VERSIONS : List Buf :=
  [[0x30, 0x33, 0x35, 0x00], [0x30, 0x33, 0x37, 0x00],
   [0x30, 0x33, 0x38, 0x00], [0x30, 0x33, 0x39, 0x00]]

/-- The distinct failure outcomes of `DexParser.parse`:
`badMagic` is the `return False` at the `_validate_magic` check (the single
boolean covers a buffer shorter than 8 bytes, a wrong magic, and an
unsupported version alike); `tooShort` is the
`ValueError('Invalid DEX file: header too short')` raised by `_parse_header`;
`structError` is a `struct.error` raised by a `struct.unpack` call on a slice
whose length does not match the format size; `indexError` is an `IndexError`.
All exceptions are caught by the blanket handler in `parse`, which then
returns `False`. -/
inductive DexError where
  | badMagic
  | tooShort
  | structError
  | indexError
deriving DecidableEq, Repr

/-- `dataclass DexHeader` (defaults added so test values can be built
field-by-field; the source constructor always passes every field). -/
structure DexHeader where
  magic : Buf := []
  version : Buf := []
  checksum : Nat := 0
  signature : Buf := []
  file_size : Nat := 0
  header_size : Nat := 0
  endian_tag : Nat := 0
  link_size : Nat := 0
  link_off : Nat := 0
  map_off : Nat := 0
  string_ids_size : Nat := 0
  string_ids_off : Nat := 0
  type_ids_size : Nat := 0
  type_ids_off : Nat := 0
  proto_ids_size : Nat := 0
  proto_ids_off : Nat := 0
  field_ids_size : Nat := 0
  field_ids_off : Nat := 0
  method_ids_size : Nat := 0
  method_ids_off : Nat := 0
  class_defs_size : Nat := 0
  class_defs_off : Nat := 0
  data_size : Nat := 0
  data_off : Nat := 0
deriving DecidableEq, Repr

/-- `dataclass DexStringId`. -/
structure DexStringId where
  string_data_off : Nat
  string_data : List Nat := []
deriving DecidableEq, Repr

/-- `dataclass DexTypeId`. -/
structure DexTypeId where
  descriptor_idx : Nat
  descriptor : List Nat := []
deriving DecidableEq, Repr

/-- `dataclass DexProtoId` (`parameters` is set to `[]` by `_parse_proto_ids`
and never filled in). -/
structure DexProtoId where
  shorty_idx : Nat
  return_type_idx : Nat
  parameters_off : Nat
  shorty : List Nat := []
  return_type : List Nat := []
  parameters : List (List Nat) := []
deriving DecidableEq, Repr

/-- `dataclass DexFieldId`. -/
structure DexFieldId where
  class_idx : Nat
  type_idx : Nat
  name_idx : Nat
  class_name : List Nat := []
  type_name : List Nat := []
  field_name : List Nat := []
deriving DecidableEq, Repr

/-- `dataclass DexMethodId`. -/
structure DexMethodId where
  class_idx : Nat
  proto_idx : Nat
  name_idx : Nat
  class_name : List Nat := []
  prototype : List Nat := []
  method_name : List Nat := []
deriving DecidableEq, Repr

/-- `dataclass DexClassDef`. -/
structure DexClassDef where
  class_idx : Nat
  access_flags : Nat
  superclass_idx : Nat
  interfaces_off : Nat
  source_file_idx : Nat
  annotations_off : Nat
  class_data_off : Nat
  static_values_off : Nat
  class_name : List Nat := []
  superclass_name : List Nat := []
  source_file : List Nat := []
deriving DecidableEq, Repr

/-- `DexParser._validate_magic`. -/
def validateMagic (data : Buf) : Bool :=
  if data.length < 8 then false
  else (data.take 4 == DEX_MAGIC) && DEX_VERSIONS.contains ((data.drop 4).take 4)

/-- Size in bytes of the format string `'<8s I 20s 7I 8I'` passed to
`struct.unpack` by `_parse_header`: 8 + 4 + 20 + 7*4 + 8*4 = 92.  The header
slice `self.data[:112]` has 112 bytes whenever the buffer is long enough, so
the unpack always raises `struct.error`; and even on a 92-byte match the
resulting 18-tuple is indexed at `header_data[18]..[22]`, an `IndexError`. -/
def headerFmtSize : Nat := 92

/-- `DexParser._parse_header`.  Raises `ValueError` (`tooShort`) below 112
bytes; otherwise `struct.unpack('<8s I 20s 7I 8I', self.data[:112])` raises
`struct.error` because the slice length 112 differs from the format size 92;
the dead success branch would raise `IndexError` at `header_data[18]`.
Consequently no buffer ever yields a decoded header. -/
def parseHeader (data : Buf) : Except DexError DexHeader :=
  if data.length < 112 then Except.error DexError.tooShort
  else if (data.take 112).length = headerFmtSize then Except.error DexError.indexError
  else Except.error DexError.structError

/-- One `for i in range(n)` table loop reading a fixed-stride record at each
offset (`offset += stride` per iteration); a `struct.error` on any record
(`f` returning `none`) propagates out of the stage. -/
def tableEntries {α : Type} (f : Nat → Option α) (off stride : Nat) : Nat → Option (List α)
  | 0 => some []
  | n + 1 =>
    match f off with
    | none => none
    | some x =>
      match tableEntries f (off + stride) stride n with
      | none => none
      | some rest => some (x :: rest)

/-- Per-record work of `_parse_string_ids`: read the `u32` `string_data_off`,
then attach `_read_string_data(string_data_off)` (which is total). -/
def parseStringIds (data : Buf) (hdr : DexHeader) : Option (List DexStringId) :=
  tableEntries
    (fun o => (readU32 data o).map
      (fun w => DexStringId.mk w (readStringData data w)))
    hdr.string_ids_off 4 hdr.string_ids_size

/-- Per-record resolution of `_parse_type_ids`: the descriptor is
`self.strings[descriptor_idx]` if in range, else left empty. -/
def mkTypeId (strings : List (List Nat)) (idx : Nat) : DexTypeId :=
  { descriptor_idx := idx,
    descriptor := if idx < strings.length then strings.getD idx [] else [] }

/-- `DexParser._parse_type_ids`. -/
def parseTypeIds (data : Buf) (strings : List (List Nat)) (hdr : DexHeader) :
    Option (List DexTypeId) :=
  tableEntries (fun o => (readU32 data o).map (mkTypeId strings))
    hdr.type_ids_off 4 hdr.type_ids_size

/-- Per-record resolution of `_parse_proto_ids`. -/
def mkProtoId (strings : List (List Nat)) (typeIds : List DexTypeId)
    (r : Nat × Nat × Nat) : DexProtoId :=
  { shorty_idx := r.1, return_type_idx := r.2.1, parameters_off := r.2.2,
    shorty := if r.1 < strings.length then strings.getD r.1 [] else [],
    return_type :=
      if r.2.1 < typeIds.length then (typeIds.getD r.2.1 (DexTypeId.mk 0 [])).descriptor
      else [],
    parameters := [] }

/-- `DexParser._parse_proto_ids`. -/
def parseProtoIds (data : Buf) (strings : List (List Nat)) (typeIds : List DexTypeId)
    (hdr : DexHeader) : Option (List DexProtoId) :=
  tableEntries (fun o => (readProtoRecord data o).map (mkProtoId strings typeIds))
    hdr.proto_ids_off 12 hdr.proto_ids_size

/-- Per-record resolution of `_parse_field_ids`. -/
def mkFieldId (typeIds : List DexTypeId) (strings : List (List Nat))
    (r : Nat × Nat × Nat) : DexFieldId :=
  { class_idx := r.1, type_idx := r.2.1, name_idx := r.2.2,
    class_name :=
      if r.1 < typeIds.length then (typeIds.getD r.1 (DexTypeId.mk 0 [])).descriptor
      else [],
    type_name :=
      if r.2.1 < typeIds.length then (typeIds.getD r.2.1 (DexTypeId.mk 0 [])).descriptor
      else [],
    field_name := if r.2.2 < strings.length then strings.getD r.2.2 [] else [] }

/-- `DexParser._parse_field_ids`. -/
def parseFieldIds (data : Buf) (strings : List (List Nat)) (typeIds : List DexTypeId)
    (hdr : DexHeader) : Option (List DexFieldId) :=
  tableEntries (fun o => (readFieldRecord data o).map (mkFieldId typeIds strings))
    hdr.field_ids_off 8 hdr.field_ids_size

/-- Per-record resolution of `_parse_method_ids`. -/
def mkMethodId (typeIds : List DexTypeId) (protoIds : List DexProtoId)
    (strings : List (List Nat)) (r : Nat × Nat × Nat) : DexMethodId :=
  { class_idx := r.1, proto_idx := r.2.1, name_idx := r.2.2,
    class_name :=
      if r.1 < typeIds.length then (typeIds.getD r.1 (DexTypeId.mk 0 [])).descriptor
      else [],
    prototype :=
      if r.2.1 < protoIds.length then
        (protoIds.getD r.2.1 (DexProtoId.mk 0 0 0 [] [] [])).shorty
      else [],
    method_name := if r.2.2 < strings.length then strings.getD r.2.2 [] else [] }

/-- `DexParser._parse_method_ids`. -/
def parseMethodIds (data : Buf) (strings : List (List Nat)) (typeIds : List DexTypeId)
    (protoIds : List DexProtoId) (hdr : DexHeader) : Option (List DexMethodId) :=
  tableEntries (fun o => (readFieldRecord data o).map (mkMethodId typeIds protoIds strings))
    hdr.method_ids_off 8 hdr.method_ids_size

/-- Per-record resolution of `_parse_class_defs`:
`class_name` is guarded by a plain bounds check,
`superclass_name` and `source_file` first test the `0xFFFFFFFF` sentinel and
then the bounds, exactly as the source conjunctions
`class_data[2] != 0xFFFFFFFF and class_data[2] < len(self.type_ids)` and
`class_data[4] != 0xFFFFFFFF and class_data[4] < len(self.strings)`. -/
def mkClassDef (typeIds : List DexTypeId) (strings : List (List Nat))
    (r : Nat × Nat × Nat × Nat × Nat × Nat × Nat × Nat) : DexClassDef :=
  { class_idx := r.1, access_flags := r.2.1, superclass_idx := r.2.2.1,
    interfaces_off := r.2.2.2.1, source_file_idx := r.2.2.2.2.1,
    annotations_off := r.2.2.2.2.2.1, class_data_off := r.2.2.2.2.2.2.1,
    static_values_off := r.2.2.2.2.2.2.2,
    class_name :=
      if r.1 < typeIds.length then (typeIds.getD r.1 (DexTypeId.mk 0 [])).descriptor
      else [],
    superclass_name :=
      if r.2.2.1 ≠ 0xFFFFFFFF ∧ r.2.2.1 < typeIds.length then
        (typeIds.getD r.2.2.1 (DexTypeId.mk 0 [])).descriptor
      else [],
    source_file :=
      if r.2.2.2.2.1 ≠ 0xFFFFFFFF ∧ r.2.2.2.2.1 < strings.length then
        strings.getD r.2.2.2.2.1 []
      else [] }

/-- `DexParser._parse_class_defs`. -/
def parseClassDefs (data : Buf) (strings : List (List Nat)) (typeIds : List DexTypeId)
    (hdr : DexHeader) : Option (List DexClassDef) :=
  tableEntries (fun o => (readClassDefRecord data o).map (mkClassDef typeIds strings))
    hdr.class_defs_off 32 hdr.class_defs_size

/-- The table attributes of a `DexParser` object after the staged loops.
`strings` is appended in lockstep with `string_ids` in the source, hence it
is the `string_data` projection of `stringIds`. -/
structure DexTables where
  stringIds : List DexStringId
  strings : List (List Nat)
  typeIds : List DexTypeId
  protoIds : List DexProtoId
  fieldIds : List DexFieldId
  methodIds : List DexMethodId
  classDefs : List DexClassDef
deriving DecidableEq, Repr

/-- The stage pipeline of `DexParser.parse` after `_parse_header`:
Strings, Types, Protos, Fields, Methods, ClassDefs, in source order; a
`struct.error` in any stage aborts (`none`).  (In the source `_parse_header`
always raises, so `parse` never actually reaches these stages; they are
verified here as the functions they are.) -/
def parseStages (data : Buf) (hdr : DexHeader) : Option DexTables :=
  (parseStringIds data hdr).bind (fun sids =>
    (parseTypeIds data (sids.map (fun s => s.string_data)) hdr).bind (fun tids =>
      (parseProtoIds data (sids.map (fun s => s.string_data)) tids hdr).bind (fun pids =>
        (parseFieldIds data (sids.map (fun s => s.string_data)) tids hdr).bind (fun fids =>
          (parseMethodIds data (sids.map (fun s => s.string_data)) tids pids hdr).bind
            (fun mids =>
              (parseClassDefs data (sids.map (fun s => s.string_data)) tids hdr).bind
                (fun cdefs =>
                  some (DexTables.mk sids (sids.map (fun s => s.string_data))
                    tids pids fids mids cdefs)))))))

/-- The full mutable state of a `DexParser` object that `parse` leaves
behind (header plus tables); all fields start empty in `__init__`. -/
structure DexState where
  header : Option DexHeader := none
  stringIds : List DexStringId := []
  typeIds : List DexTypeId := []
  protoIds : List DexProtoId := []
  fieldIds : List DexFieldId := []
  methodIds : List DexMethodId := []
  classDefs : List DexClassDef := []
  strings : List (List Nat) := []
deriving DecidableEq, Repr

/-- `DexParser.parse`: magic/version check first (`return False` on failure),
then `_parse_header` (whose exception the blanket handler turns into a
`False` return), then the six table stages.  The second component is the
object state left behind: tables populated up to the first failing stage.
(Stage-internal partial appends are collapsed to whole-stage granularity;
no claim observes the interior of a failed stage.) -/
def parse (data : Buf) : Except DexError Unit × DexState :=
  if validateMagic data = false then (Except.error DexError.badMagic, {})
  else
    match parseHeader data with
    | Except.error e => (Except.error e, {})
    | Except.ok hdr =>
      match parseStringIds data hdr with
      | none => (Except.error DexError.structError, { header := some hdr })
      | some sids =>
        let strings := sids.map (fun s => s.string_data)
        match parseTypeIds data strings hdr with
        | none =>
          (Except.error DexError.structError,
           { header := some hdr, stringIds := sids, strings := strings })
        | some tids =>
          match parseProtoIds data strings tids hdr with
          | none =>
            (Except.error DexError.structError,
             { header := some hdr, stringIds := sids, strings := strings,
               typeIds := tids })
          | some pids =>
            match parseFieldIds data strings tids hdr with
            | none =>
              (Except.error DexError.structError,
               { header := some hdr, stringIds := sids, strings := strings,
                 typeIds := tids, protoIds := pids })
            | some fids =>
              match parseMethodIds data strings tids pids hdr with
              | none =>
                (Except.error DexError.structError,
                 { header := some hdr, stringIds := sids, strings := strings,
                   typeIds := tids, protoIds := pids, fieldIds := fids })
              | some mids =>
                match parseClassDefs data strings tids hdr with
                | none =>
                  (Except.error DexError.structError,
                   { header := some hdr, stringIds := sids, strings := strings,
                     typeIds := tids, protoIds := pids, fieldIds := fids,
                     methodIds := mids })
                | some cdefs =>
                  (Except.ok (),
                   { header := some hdr, stringIds := sids, strings := strings,
                     typeIds := tids, protoIds := pids, fieldIds := fids,
                     methodIds := mids, classDefs := cdefs })

/-- The count fields of `DexParser.get_summary` (plus the header-derived
entries; `file_path` is omitted as it does not concern the buffer). -/
structure DexSummary where
  version : Buf
  file_size : Nat
  checksum : Nat
  strings_count : Nat
  types_count : Nat
  prototypes_count : Nat
  fields_count : Nat
  methods_count : Nat
  classes_count : Nat
deriving DecidableEq, Repr

/-- `DexParser.get_summary`: `{}` (here `none`) when `self.header` is unset,
otherwise the populated summary dictionary. -/
def getSummary (st : DexState) : Option DexSummary :=
  match st.header with
  | none => none
  | some h =>
    some (DexSummary.mk h.version h.file_size h.checksum
      st.stringIds.length st.typeIds.length st.protoIds.length
      st.fieldIds.length st.methodIds.length st.classDefs.length)

/-! Generic facts about one fixed-stride table loop. -/

/-- A successful table loop produces exactly `n` entries. -/
theorem tableEntries_length {α : Type} {f : Nat → Option α} {stride : Nat} :
    ∀ {n off : Nat} {l : List α}, tableEntries f off stride n = some l → l.length = n := by
  intro n
  induction n with
  | zero =>
    intro off l h
    simp only [tableEntries] at h
    cases h
    rfl
  | succ n ih =>
    intro off l h
    simp only [tableEntries] at h
    cases hf : f off with
    | none => rw [hf] at h; cases h
    | some x =>
      rw [hf] at h
      cases ht : tableEntries f (off + stride) stride n with
      | none => rw [ht] at h; cases h
      | some rest =>
        rw [ht] at h
        cases h
        simp [ih ht]

/-- If every record read in range succeeds, the table loop succeeds. -/
theorem tableEntries_isSome {α : Type} {f : Nat → Option α} {stride : Nat} :
    ∀ (n off : Nat), (∀ i, i < n → (f (off + stride * i)).isSome) →
      (tableEntries f off stride n).isSome := by
  intro n
  induction n with
  | zero => intro off _; simp [tableEntries]
  | succ n ih =>
    intro off h
    have h0 : (f off).isSome := by
      have := h 0 (by omega)
      simpa using this
    obtain ⟨x, hx⟩ := Option.isSome_iff_exists.mp h0
    have hrest : (tableEntries f (off + stride) stride n).isSome := by
      apply ih
      intro i hi
      have hs := h (i + 1) (by omega)
      have heq : off + stride * (i + 1) = off + stride + stride * i := by
        rw [Nat.mul_succ]; omega
      rw [heq] at hs
      exact hs
    obtain ⟨rest, hr⟩ := Option.isSome_iff_exists.mp hrest
    simp [tableEntries, hx, hr]

/-- Entry `i` of a successful table loop is the record read at
`off + stride * i`. -/
theorem tableEntries_get? {α : Type} {f : Nat → Option α} {stride : Nat} :
    ∀ {n off : Nat} {l : List α}, tableEntries f off stride n = some l →
      ∀ i x, l[i]? = some x → f (off + stride * i) = some x := by
  intro n
  induction n with
  | zero =>
    intro off l h i x hx
    simp only [tableEntries] at h
    cases h
    simp at hx
  | succ n ih =>
    intro off l h i x hx
    simp only [tableEntries] at h
    cases hf : f off with
    | none => rw [hf] at h; cases h
    | some x0 =>
      rw [hf] at h
      cases ht : tableEntries f (off + stride) stride n with
      | none => rw [ht] at h; cases h
      | some rest =>
        rw [ht] at h
        cases h
        cases i with
        | zero =>
          simp at hx
          subst hx
          simpa using hf
        | succ i =>
          simp at hx
          have := ih ht i x hx
          have heq : off + stride + stride * i = off + stride * (i + 1) := by
            rw [Nat.mul_succ]; omega
          rw [heq] at this
          exact this

/-- Every member of a successful table loop is a successfully read record. -/
theorem tableEntries_mem {α : Type} {f : Nat → Option α} {stride n off : Nat}
    {l : List α} (h : tableEntries f off stride n = some l) {x : α} (hx : x ∈ l) :
    ∃ o, f o = some x := by
  obtain ⟨i, hi⟩ := List.mem_iff_getElem?.mp hx
  exact ⟨off + stride * i, tableEntries_get? h i x hi⟩

/-- A `u32` record read succeeds when its 4 bytes are in range. -/
theorem readU32_isSome {data : Buf} {o : Nat} (h : o + 4 ≤ data.length) :
    (readU32 data o).isSome := by
  simp [readU32, h]

/-- An `<HHI>` record read succeeds when its 8 bytes are in range. -/
theorem readFieldRecord_isSome {data : Buf} {o : Nat} (h : o + 8 ≤ data.length) :
    (readFieldRecord data o).isSome := by
  simp [readFieldRecord, h]

/-- A `<3I>` record read succeeds when its 12 bytes are in range. -/
theorem readProtoRecord_isSome {data : Buf} {o : Nat} (h : o + 12 ≤ data.length) :
    (readProtoRecord data o).isSome := by
  simp [readProtoRecord, h]

/-- An `<8I>` record read succeeds when its 32 bytes are in range. -/
theorem readClassDefRecord_isSome {data : Buf} {o : Nat} (h : o + 32 ≤ data.length) :
    (readClassDefRecord data o).isSome := by
  simp [readClassDefRecord, h]

/-- Claim C4 (confirmed, at the level of `_parse_class_defs`, which the
source's `parse` never actually reaches because `_parse_header` always
raises, see C2): every class definition produced by the class-def table
loop whose `superclass_idx` is the sentinel `0xFFFFFFFF` has an empty
`superclass_name`, and likewise `source_file_idx` / `source_file`; the
sentinel test short-circuits the conjunction before any table lookup. -/
theorem classDefs_sentinel_resolves_empty (data : Buf) (strings : List (List Nat))
    (typeIds : List DexTypeId) (hdr : DexHeader) (defs : List DexClassDef)
    (h : parseClassDefs data strings typeIds hdr = some defs)
    (cd : DexClassDef) (hcd : cd ∈ defs) :
    (cd.superclass_idx = 0xFFFFFFFF → cd.superclass_name = []) ∧
    (cd.source_file_idx = 0xFFFFFFFF → cd.source_file = []) := by
  unfold parseClassDefs at h
  obtain ⟨o, ho⟩ := tableEntries_mem h hcd
  obtain ⟨r, hr, hmk⟩ := Option.map_eq_some'.mp ho
  subst hmk
  constructor
  · intro hs
    simp only [mkClassDef] at hs ⊢
    rw [if_neg]
    intro hc
    exact hc.1 hs
  · intro hs
    simp only [mkClassDef] at hs ⊢
    rw [if_neg]
    intro hc
    exact hc.1 hs

/-- Witness for C4: a single 32-byte record of `0xFF` bytes decodes to a
class definition whose every field is `0xFFFFFFFF`; both sentinel-guarded
names resolve to the empty string. -/
theorem classDefs_sentinel_resolves_empty_witness :
    ((mkClassDef [] [] (0xFFFFFFFF, 0xFFFFFFFF, 0xFFFFFFFF, 0xFFFFFFFF, 0xFFFFFFFF,
        0xFFFFFFFF, 0xFFFFFFFF, 0xFFFFFFFF)).superclass_idx = 0xFFFFFFFF →
      (mkClassDef [] [] (0xFFFFFFFF, 0xFFFFFFFF, 0xFFFFFFFF, 0xFFFFFFFF, 0xFFFFFFFF,
        0xFFFFFFFF, 0xFFFFFFFF, 0xFFFFFFFF)).superclass_name = []) ∧
    ((mkClassDef [] [] (0xFFFFFFFF, 0xFFFFFFFF, 0xFFFFFFFF, 0xFFFFFFFF, 0xFFFFFFFF,
        0xFFFFFFFF, 0xFFFFFFFF, 0xFFFFFFFF)).source_file_idx = 0xFFFFFFFF →
      (mkClassDef [] [] (0xFFFFFFFF, 0xFFFFFFFF, 0xFFFFFFFF, 0xFFFFFFFF, 0xFFFFFFFF,
        0xFFFFFFFF, 0xFFFFFFFF, 0xFFFFFFFF)).source_file = []) :=
  classDefs_sentinel_resolves_empty (List.replicate 32 0xFF) [] []
    { class_defs_size := 1 }
    [mkClassDef [] [] (0xFFFFFFFF, 0xFFFFFFFF, 0xFFFFFFFF, 0xFFFFFFFF, 0xFFFFFFFF,
      0xFFFFFFFF, 0xFFFFFFFF, 0xFFFFFFFF)]
    (by decide)
    (mkClassDef [] [] (0xFFFFFFFF, 0xFFFFFFFF, 0xFFFFFFFF, 0xFFFFFFFF, 0xFFFFFFFF,
      0xFFFFFFFF, 0xFFFFFFFF, 0xFFFFFFFF))
    (by simp)

/-- Claim C7 (confirmed, at the level of `_parse_type_ids`): when every
4-byte type-id record is in range, the stage succeeds with exactly
`type_ids_size` entries, and every entry whose `descriptor_idx` is out of
range of the string pool gets an empty descriptor, the other entries being
unaffected. -/
theorem typeIds_out_of_range_descriptor_empty (data : Buf) (strings : List (List Nat))
    (hdr : DexHeader)
    (hbounds : ∀ i, i < hdr.type_ids_size → hdr.type_ids_off + 4 * i + 4 ≤ data.length) :
    ∃ tids, parseTypeIds data strings hdr = some tids ∧
      tids.length = hdr.type_ids_size ∧
      ∀ (i : Nat) (x : DexTypeId), tids[i]? = some x →
        strings.length ≤ x.descriptor_idx → x.descriptor = [] := by
  have hsome : (parseTypeIds data strings hdr).isSome := by
    unfold parseTypeIds
    apply tableEntries_isSome
    intro i hi
    have hb := hbounds i hi
    have h32 : (readU32 data (hdr.type_ids_off + 4 * i)).isSome :=
      readU32_isSome (by omega)
    simpa using h32
  obtain ⟨tids, ht⟩ := Option.isSome_iff_exists.mp hsome
  refine ⟨tids, ht, ?_, ?_⟩
  · unfold parseTypeIds at ht
    exact tableEntries_length ht
  · intro i x hx hge
    unfold parseTypeIds at ht
    have hf := tableEntries_get? ht i x hx
    obtain ⟨w, hw, hmk⟩ := Option.map_eq_some'.mp hf
    subst hmk
    simp only [mkTypeId] at hge ⊢
    rw [if_neg (by omega)]

/-- Witness for C7: one type id whose `descriptor_idx` is 5 against an empty
string pool resolves to an empty descriptor. -/
theorem typeIds_out_of_range_descriptor_empty_witness :
    (∀ i, i < DexHeader.type_ids_size { type_ids_size := 1 } →
      DexHeader.type_ids_off { type_ids_size := 1 } + 4 * i + 4 ≤
        List.length ([5, 0, 0, 0] : Buf)) ∧
    (∃ tids, parseTypeIds [5, 0, 0, 0] [] { type_ids_size := 1 } = some tids ∧
      tids.length = DexHeader.type_ids_size { type_ids_size := 1 } ∧
      ∀ (i : Nat) (x : DexTypeId), tids[i]? = some x →
        List.length ([] : List (List Nat)) ≤ x.descriptor_idx → x.descriptor = []) :=
  ⟨by intro i hi; simp at hi ⊢; omega,
   typeIds_out_of_range_descriptor_empty [5, 0, 0, 0] [] { type_ids_size := 1 }
     (by intro i hi; simp at hi ⊢; omega)⟩

/-- Claim C1, counterexample: a header record whose `string_ids_off` points
past the end of the buffer (one corrupt table-entry offset) does not leave
that entry's text empty and continue: `struct.unpack('<I', ...)` raises and
the whole stage pipeline aborts with `none`. -/
theorem parseStages_fails_on_bad_table_offset :
    parseStages (List.replicate 112 0) { string_ids_size := 1, string_ids_off := 1000 }
      = none := by
  rfl

/-- Claim C1 as amended (proved): given a header, the stage pipeline's
success depends only on every fixed-stride record read being in bounds;
no per-entry value occurring inside the records — a `string_data_off`
pointing anywhere, or any resolution index being out of range — can make
the parse fail.  (Out-of-range record offsets do abort, as the
counterexample shows; and in the source `parse` itself never reaches the
stages because `_parse_header` always raises, see C2.) -/
theorem parseStages_entry_values_never_abort (data : Buf) (hdr : DexHeader)
    (h1 : ∀ i, i < hdr.string_ids_size → hdr.string_ids_off + 4 * i + 4 ≤ data.length)
    (h2 : ∀ i, i < hdr.type_ids_size → hdr.type_ids_off + 4 * i + 4 ≤ data.length)
    (h3 : ∀ i, i < hdr.proto_ids_size → hdr.proto_ids_off + 12 * i + 12 ≤ data.length)
    (h4 : ∀ i, i < hdr.field_ids_size → hdr.field_ids_off + 8 * i + 8 ≤ data.length)
    (h5 : ∀ i, i < hdr.method_ids_size → hdr.method_ids_off + 8 * i + 8 ≤ data.length)
    (h6 : ∀ i, i < hdr.class_defs_size → hdr.class_defs_off + 32 * i + 32 ≤ data.length) :
    (parseStages data hdr).isSome := by
  have s1 : (parseStringIds data hdr).isSome := by
    unfold parseStringIds
    apply tableEntries_isSome
    intro i hi
    have := readU32_isSome (show hdr.string_ids_off + 4 * i + 4 ≤ data.length by
      have := h1 i hi; omega)
    simpa using this
  obtain ⟨sids, hs⟩ := Option.isSome_iff_exists.mp s1
  have s2 : (parseTypeIds data (sids.map (fun s => s.string_data)) hdr).isSome := by
    unfold parseTypeIds
    apply tableEntries_isSome
    intro i hi
    have := readU32_isSome (show hdr.type_ids_off + 4 * i + 4 ≤ data.length by
      have := h2 i hi; omega)
    simpa using this
  obtain ⟨tids, ht⟩ := Option.isSome_iff_exists.mp s2
  have s3 : (parseProtoIds data (sids.map (fun s => s.string_data)) tids hdr).isSome := by
    unfold parseProtoIds
    apply tableEntries_isSome
    intro i hi
    have := readProtoRecord_isSome (show hdr.proto_ids_off + 12 * i + 12 ≤ data.length by
      have := h3 i hi; omega)
    simpa using this
  obtain ⟨pids, hp⟩ := Option.isSome_iff_exists.mp s3
  have s4 : (parseFieldIds data (sids.map (fun s => s.string_data)) tids hdr).isSome := by
    unfold parseFieldIds
    apply tableEntries_isSome
    intro i hi
    have := readFieldRecord_isSome (show hdr.field_ids_off + 8 * i + 8 ≤ data.length by
      have := h4 i hi; omega)
    simpa using this
  obtain ⟨fids, hf⟩ := Option.isSome_iff_exists.mp s4
  have s5 : (parseMethodIds data (sids.map (fun s => s.string_data)) tids pids hdr).isSome := by
    unfold parseMethodIds
    apply tableEntries_isSome
    intro i hi
    have := readFieldRecord_isSome (show hdr.method_ids_off + 8 * i + 8 ≤ data.length by
      have := h5 i hi; omega)
    simpa using this
  obtain ⟨mids, hm⟩ := Option.isSome_iff_exists.mp s5
  have s6 : (parseClassDefs data (sids.map (fun s => s.string_data)) tids hdr).isSome := by
    unfold parseClassDefs
    apply tableEntries_isSome
    intro i hi
    have := readClassDefRecord_isSome (show hdr.class_defs_off + 32 * i + 32 ≤ data.length by
      have := h6 i hi; omega)
    simpa using this
  obtain ⟨cdefs, hc⟩ := Option.isSome_iff_exists.mp s6
  simp [parseStages, hs, ht, hp, hf, hm, hc]

/-- Witness for C1 as amended: a 32-byte all-zero buffer with every table of
size one at offset zero parses through all six stages. -/
theorem parseStages_entry_values_never_abort_witness :
    (parseStages (List.replicate 32 0)
      { string_ids_size := 1, type_ids_size := 1, proto_ids_size := 1,
        field_ids_size := 1, method_ids_size := 1, class_defs_size := 1 }).isSome :=
  parseStages_entry_values_never_abort (List.replicate 32 0)
    { string_ids_size := 1, type_ids_size := 1, proto_ids_size := 1,
      field_ids_size := 1, method_ids_size := 1, class_defs_size := 1 }
    (by intro i hi; simp at hi ⊢; omega)
    (by intro i hi; simp at hi ⊢; omega)
    (by intro i hi; simp at hi ⊢; omega)
    (by intro i hi; simp at hi ⊢; omega)
    (by intro i hi; simp at hi ⊢; omega)
    (by intro i hi; simp at hi ⊢; omega)

/-- Claim C9 (confirmed, at the level of the stage pipeline; the source's
`parse` never reaches it, see C2): a successful run of the six stages
produces tables whose lengths equal the corresponding header size fields,
with the string pool in lockstep with the string-id table. -/
theorem parseStages_lengths_match_header (data : Buf) (hdr : DexHeader) (t : DexTables)
    (h : parseStages data hdr = some t) :
    t.stringIds.length = hdr.string_ids_size ∧
    t.typeIds.length = hdr.type_ids_size ∧
    t.protoIds.length = hdr.proto_ids_size ∧
    t.fieldIds.length = hdr.field_ids_size ∧
    t.methodIds.length = hdr.method_ids_size ∧
    t.classDefs.length = hdr.class_defs_size ∧
    t.strings.length = t.stringIds.length ∧
    ∀ (i : Nat) (s : List Nat), t.strings[i]? = some s →
      ∃ sid : DexStringId, t.stringIds[i]? = some sid ∧ s = sid.string_data := by
  simp only [parseStages, Option.bind_eq_some] at h
  obtain ⟨sids, hs, tids, ht, pids, hp, fids, hf, mids, hm, cdefs, hc, heq⟩ := h
  cases heq
  unfold parseStringIds at hs
  unfold parseTypeIds at ht
  unfold parseProtoIds at hp
  unfold parseFieldIds at hf
  unfold parseMethodIds at hm
  unfold parseClassDefs at hc
  refine ⟨tableEntries_length hs, tableEntries_length ht,
    tableEntries_length hp, tableEntries_length hf,
    tableEntries_length hm, tableEntries_length hc, by simp, ?_⟩
  intro i s hi
  simp only [List.getElem?_map] at hi
  obtain ⟨sid, hsid, hmap⟩ := Option.map_eq_some'.mp hi
  exact ⟨sid, hsid, hmap.symm⟩

/-- Witness for C9: the all-sizes-zero header yields empty tables matching
its zero counts. -/
theorem parseStages_lengths_match_header_witness :
    ([] : List DexStringId).length = DexHeader.string_ids_size {} ∧
    ([] : List DexTypeId).length = DexHeader.type_ids_size {} ∧
    ([] : List DexProtoId).length = DexHeader.proto_ids_size {} ∧
    ([] : List DexFieldId).length = DexHeader.field_ids_size {} ∧
    ([] : List DexMethodId).length = DexHeader.method_ids_size {} ∧
    ([] : List DexClassDef).length = DexHeader.class_defs_size {} ∧
    ([] : List (List Nat)).length = ([] : List DexStringId).length ∧
    ∀ (i : Nat) (s : List Nat), ([] : List (List Nat))[i]? = some s →
      ∃ sid : DexStringId, ([] : List DexStringId)[i]? = some sid ∧ s = sid.string_data :=
  parseStages_lengths_match_header [] {} (DexTables.mk [] [] [] [] [] [] []) rfl

/-- Claim C2 (code bug): `_parse_header` never succeeds.  For every buffer of
length at least 112 the `struct.unpack('<8s I 20s 7I 8I', self.data[:112])`
call raises `struct.error`, because the format describes 92 bytes
(8+4+20+28+32) while the slice has 112; the claimed field-by-field decode
never happens (and the success path would also index the 18-element unpack
result at positions 18..22). -/
theorem parseHeader_always_fails (data : Buf) (h : 112 ≤ data.length) :
    parseHeader data = Except.error DexError.structError := by
  have h1 : ¬ data.length < 112 := by omega
  have ht : (data.take 112).length = 112 := by
    rw [List.length_take]; omega
  simp [parseHeader, h1, ht, headerFmtSize]

/-- Witness for C2: the minimal well-formed 112-byte buffer already fails. -/
theorem parseHeader_always_fails_witness :
    112 ≤ (List.replicate 112 0 : Buf).length ∧
    parseHeader (List.replicate 112 0) = Except.error DexError.structError :=
  ⟨by simp, parseHeader_always_fails (List.replicate 112 0) (by simp)⟩

/-- Claim C5, counterexample: a 50-byte all-zero buffer is shorter than 112
bytes, yet `parse` does not fail through the header's too-short check — it
fails at the `_validate_magic` boolean (the `BadMagic` path), because the
magic check runs first. -/
theorem parse_short_zero_buffer_not_tooShort :
    (List.replicate 50 0 : Buf).length < 112 ∧
    (parse (List.replicate 50 0)).1 ≠ Except.error DexError.tooShort ∧
    (parse (List.replicate 50 0)).1 = Except.error DexError.badMagic := by
  refine ⟨by decide, ?_, rfl⟩
  intro hx
  rw [show (parse (List.replicate 50 0)).1 = Except.error DexError.badMagic from rfl] at hx
  simp at hx

/-- Claim C5 as amended (proved): every buffer shorter than 112 bytes fails
to parse; the failure is the too-short `ValueError` when the magic/version
check passes (length at least 8, correct magic, supported version), and the
magic-validation `False` return otherwise. -/
theorem parse_short_always_fails (data : Buf) (h : data.length < 112) :
    parse data =
      (Except.error (if validateMagic data then DexError.tooShort else DexError.badMagic),
       {}) := by
  by_cases hv : validateMagic data
  · simp [parse, hv, parseHeader, h]
  · have hv2 : validateMagic data = false := by simpa using hv
    simp [parse, hv2]

/-- Witness for C5 as amended: an 8-byte buffer with valid magic and version
fails through the too-short path. -/
theorem parse_short_always_fails_witness :
    ([0x64, 0x65, 0x78, 0x0A, 0x30, 0x33, 0x35, 0x00] : Buf).length < 112 ∧
    parse [0x64, 0x65, 0x78, 0x0A, 0x30, 0x33, 0x35, 0x00] =
      (Except.error
        (if validateMagic [0x64, 0x65, 0x78, 0x0A, 0x30, 0x33, 0x35, 0x00] then
          DexError.tooShort
         else DexError.badMagic), {}) :=
  ⟨by decide,
   parse_short_always_fails [0x64, 0x65, 0x78, 0x0A, 0x30, 0x33, 0x35, 0x00] (by decide)⟩

/-- Claim C6 (confirmed): whenever the first 4 bytes are not the DEX magic,
`parse` returns the `_validate_magic` failure and the parser object keeps
its initial state: header unset and every table (string ids, types, protos,
fields, methods, class defs, string pool) empty. -/
theorem parse_bad_magic_fails_empty (data : Buf) (h : data.take 4 ≠ DEX_MAGIC) :
    parse data = (Except.error DexError.badMagic, {}) := by
  have hv : validateMagic data = false := by
    unfold validateMagic
    split
    · rfl
    · have hb : (data.take 4 == DEX_MAGIC) = false := by
        simpa using h
      simp [hb]
  simp [parse, hv]

/-- Witness for C6: an 8-byte zero buffer has the wrong magic; `parse` fails
with the magic-check path and leaves the empty state. -/
theorem parse_bad_magic_fails_empty_witness :
    (List.replicate 8 0 : Buf).take 4 ≠ DEX_MAGIC ∧
    parse (List.replicate 8 0) = (Except.error DexError.badMagic, {}) :=
  ⟨by decide, parse_bad_magic_fails_empty (List.replicate 8 0) (by decide)⟩

/-- Claim C8 (code bug): the minimal valid header buffer — magic, version
`035`, 104 zero bytes — does not parse successfully with all counts zero;
`_parse_header` raises `struct.error` (see C2), `parse` returns `False`,
and `get_summary` returns the empty dictionary because `self.header` was
never assigned. -/
theorem parse_minimal_header_buffer_fails :
    parse ([0x64, 0x65, 0x78, 0x0A, 0x30, 0x33, 0x35, 0x00] ++ List.replicate 104 0) =
      (Except.error DexError.structError, {}) ∧
    getSummary
      (parse ([0x64, 0x65, 0x78, 0x0A, 0x30, 0x33, 0x35, 0x00] ++
        List.replicate 104 0)).2 = none :=
  ⟨rfl, rfl⟩

/-! ULEB128 facts. -/

/-- Masking with `0x7F` keeps the low 7 bits. -/
theorem and127_eq_mod (b : Nat) : b &&& 127 = b % 128 := by
  have h := Nat.and_pow_two_sub_one_eq_mod b 7
  norm_num at h
  exact h

/-- A byte below `0x80` has its continuation bit clear. -/
theorem and128_eq_zero {b : Nat} (h : b < 128) : b &&& 128 = 0 := by
  have h2 := Nat.and_two_pow b 7
  norm_num at h2
  rw [h2]
  have hb : b.testBit 7 = false := Nat.testBit_lt_two_pow (by norm_num; omega)
  simp [hb]

/-- A byte in `[0x80, 0x100)` has its continuation bit set. -/
theorem and128_eq_128 {b : Nat} (h1 : 128 ≤ b) (h2 : b < 256) : b &&& 128 = 128 := by
  have h3 := Nat.and_two_pow b 7
  norm_num at h3
  rw [h3]
  have hb : b.testBit 7 = true := by
    rw [Nat.testBit_to_div_mod]
    norm_num
    omega
  simp [hb]

/-- Accumulating a shifted value into a small accumulator with bitwise or is
plain addition. -/
theorem lor_shift_acc {result : Nat} (x shift : Nat) (h : result < 2 ^ shift) :
    result ||| (x <<< shift) = result + x * 2 ^ shift := by
  have h2 := Nat.mul_add_lt_is_or h x
  rw [Nat.shiftLeft_eq, Nat.lor_comm, mul_comm x (2 ^ shift), ← h2]
  omega

/-- Running the decode loop over the reference encoding of `v`, with the
loop's accumulator invariant `result < 2 ^ shift`, adds `v * 2 ^ shift` to
the accumulator and consumes exactly the encoded bytes. -/
theorem readUleb128Go_encode :
    ∀ (v : Nat) (data : Buf) (off bytesRead result shift : Nat),
      result < 2 ^ shift →
      (∀ j, j < (ulebEncode v).length →
        data.getD (off + bytesRead + j) 0 = (ulebEncode v).getD j 0) →
      off + bytesRead + (ulebEncode v).length ≤ data.length →
      readUleb128Go data off result shift bytesRead =
        (result + v * 2 ^ shift, bytesRead + (ulebEncode v).length) := by
  intro v
  induction v using Nat.strong_induction_on with
  | _ v ih =>
    intro data off bytesRead result shift hres hbytes hlen
    by_cases hv : v < 128
    · have henc : ulebEncode v = [v] := by
        rw [ulebEncode.eq_def]
        simp [hv]
      rw [henc] at hbytes hlen ⊢
      have hb0 : data.getD (off + bytesRead) 0 = v := by
        have h := hbytes 0 (by simp)
        simpa using h
      simp only [List.length_cons, List.length_nil] at hlen ⊢
      rw [readUleb128Go.eq_def, dif_pos (by omega)]
      rw [hb0]
      rw [if_pos (and128_eq_zero hv)]
      rw [and127_eq_mod, Nat.mod_eq_of_lt hv, lor_shift_acc v shift hres]
    · have henc : ulebEncode v = (v % 128 + 128) :: ulebEncode (v / 128) := by
        rw [ulebEncode.eq_def]
        simp [hv]
      rw [henc] at hbytes hlen ⊢
      have hb0 : data.getD (off + bytesRead) 0 = v % 128 + 128 := by
        have h := hbytes 0 (by simp)
        simpa using h
      simp only [List.length_cons] at hlen ⊢
      rw [readUleb128Go.eq_def, dif_pos (by omega)]
      rw [hb0]
      rw [if_neg (by rw [and128_eq_128 (by omega) (by omega)]; omega)]
      rw [and127_eq_mod]
      have hmod : (v % 128 + 128) % 128 = v % 128 := by omega
      rw [hmod, lor_shift_acc (v % 128) shift hres]
      have hresB : result + v % 128 * 2 ^ shift < 2 ^ (shift + 7) := by
        have hp : (2 : Nat) ^ (shift + 7) = 2 ^ shift * 128 := by
          rw [pow_add]; norm_num
        have hmul : v % 128 * 2 ^ shift ≤ 127 * 2 ^ shift :=
          Nat.mul_le_mul_right (2 ^ shift) (by omega)
        have h127 : (127 : Nat) * 2 ^ shift + 2 ^ shift = 2 ^ shift * 128 := by ring
        omega
      have hbytesB : ∀ j, j < (ulebEncode (v / 128)).length →
          data.getD (off + (bytesRead + 1) + j) 0 = (ulebEncode (v / 128)).getD j 0 := by
        intro j hj
        have h := hbytes (j + 1) (by simp; omega)
        have heq : off + bytesRead + (j + 1) = off + (bytesRead + 1) + j := by omega
        rw [heq] at h
        simpa using h
      have hlenB : off + (bytesRead + 1) + (ulebEncode (v / 128)).length ≤ data.length := by
        omega
      rw [ih (v / 128) (Nat.div_lt_self (by omega) (by omega)) data off (bytesRead + 1)
        (result + v % 128 * 2 ^ shift) (shift + 7) hresB hbytesB hlenB]
      have hv2 : v = 128 * (v / 128) + v % 128 := by omega
      have hp : (2 : Nat) ^ (shift + 7) = 2 ^ shift * 128 := by
        rw [pow_add]; norm_num
      rw [hp]
      rw [Prod.mk.injEq]
      constructor
      · conv_rhs => rw [hv2]
        ring
      · omega

/-- Claim C3 (confirmed): for every `u32` value `v`, decoding the reference
ULEB128 encoding of `v` placed at offset `pre.length` of a buffer recovers
exactly `v` together with the number of bytes the encoder produced.  (The
restriction to `u32` is the claim's; the proof does not need it.) -/
theorem readUleb128_roundTrip (v : Nat) (hv : v < 4294967296) (pre post : Buf) :
    readUleb128 (pre ++ ulebEncode v ++ post) pre.length = (v, (ulebEncode v).length) := by
  have hbytes : ∀ j, j < (ulebEncode v).length →
      (pre ++ ulebEncode v ++ post).getD (pre.length + 0 + j) 0 = (ulebEncode v).getD j 0 := by
    intro j hj
    rw [List.append_assoc]
    rw [Nat.add_zero]
    rw [List.getD_eq_getElem?_getD, List.getD_eq_getElem?_getD]
    rw [List.getElem?_append_right (by omega)]
    have heq : pre.length + j - pre.length = j := by omega
    rw [heq]
    rw [List.getElem?_append_left (by omega)]
  have hlen : pre.length + 0 + (ulebEncode v).length ≤ (pre ++ ulebEncode v ++ post).length := by
    simp [List.length_append]
  have h := readUleb128Go_encode v (pre ++ ulebEncode v ++ post) pre.length 0 0 0
    (by norm_num) hbytes hlen
  unfold readUleb128
  rw [h]
  simp

/-- Witness for C3: the round trip at `v = u32::MAX = 0xFFFFFFFF` in a bare
buffer, together with the concrete 5-byte encoding. -/
theorem readUleb128_roundTrip_witness :
    (4294967295 : Nat) < 4294967296 ∧
    ulebEncode 4294967295 = [255, 255, 255, 255, 15] ∧
    readUleb128 ([] ++ ulebEncode 4294967295 ++ []) (List.length ([] : Buf)) =
      (4294967295, (ulebEncode 4294967295).length) :=
  ⟨by norm_num,
   by
    rw [ulebEncode.eq_def]
    norm_num
    rw [ulebEncode.eq_def]
    norm_num
    rw [ulebEncode.eq_def]
    norm_num
    rw [ulebEncode.eq_def]
    norm_num
    rw [ulebEncode.eq_def]
    norm_num,
   readUleb128_roundTrip 4294967295 (by norm_num) [] []⟩

/-- The decode loop consumes at most the bytes remaining past the loop's
current position. -/
theorem readUleb128Go_le (data : Buf) (off : Nat) :
    ∀ (fuel result shift bytesRead : Nat), data.length - (off + bytesRead) ≤ fuel →
      (readUleb128Go data off result shift bytesRead).2 ≤
        bytesRead + (data.length - (off + bytesRead)) := by
  intro fuel
  induction fuel with
  | zero =>
    intro result shift bytesRead hf
    rw [readUleb128Go.eq_def, dif_neg (by omega)]
    omega
  | succ fuel ih =>
    intro result shift bytesRead hf
    rw [readUleb128Go.eq_def]
    by_cases hguard : off + bytesRead < data.length
    · rw [dif_pos hguard]
      by_cases hbit : data.getD (off + bytesRead) 0 &&& 128 = 0
      · rw [if_pos hbit]
        simp
        omega
      · rw [if_neg hbit]
        have h := ih (result ||| (data.getD (off + bytesRead) 0 &&& 127) <<< shift)
          (shift + 7) (bytesRead + 1) (by omega)
        omega
    · rw [dif_neg hguard]
      omega

/-- Claim C10 (confirmed): `_read_uleb128` terminates on every buffer and
offset (the embedding is a total function), consumes at most
`len(buffer) - offset` bytes, and returns `(0, 0)` whenever the offset is at
or past the end of the buffer. -/
theorem readUleb128_terminates_within_buffer (data : Buf) (off : Nat) :
    (readUleb128 data off).2 ≤ data.length - off ∧
    (data.length ≤ off → readUleb128 data off = (0, 0)) := by
  constructor
  · have h := readUleb128Go_le data off (data.length - off) 0 0 0 (by omega)
    simpa using h
  · intro h
    unfold readUleb128
    rw [readUleb128Go.eq_def, dif_neg (by omega)]

/-- Witness for C10: reading at offset 5 of a 2-byte buffer returns
`(0, 0)`. -/
theorem readUleb128_terminates_within_buffer_witness :
    readUleb128 [1, 2] 5 = (0, 0) :=
  (readUleb128_terminates_within_buffer [1, 2] 5).2 (by decide)

end DexParser
